import Mathlib

/-!
Verification of the ModESP manifest-processing pipeline
(`tools/process_manifests.py` and `tools/manifest_validator.py`).

Python dicts are modelled as insertion-ordered association lists
(`List (String × _)`), matching CPython's guaranteed iteration order.
`list.sort(key=...)` is modelled by a stable insertion sort on the same
key; Python's Timsort is also stable, so the two agree extensionally.
-/

namespace ModESPProof

/-- A single-quote character, kept as a named constant so that generated
messages can embed it. -/
def sq : String := "\x27"

/-- Python `", ".join(xs)` / `"\n".join(xs)`. -/
def pyJoin (sep : String) : List String → String
  | [] => ""
  | [s] => s
  | s :: rest => s ++ sep ++ pyJoin sep rest

/-- Python `if k not in d: d[k] = []` followed by `d[k].append(v)` on an
insertion-ordered dict: a fresh key is appended at the end, an existing
key has `v` appended to its list in place. -/
def dictAppendList : List (String × List String) → String → String → List (String × List String)
  | [], k, v => [(k, [v])]
  | (k1, l) :: rest, k, v =>
    if k1 = k then (k1, l ++ [v]) :: rest else (k1, l) :: dictAppendList rest k v

/-- Python `d[k] = v` on an insertion-ordered dict: an existing key keeps
its position and gets the new value, a fresh key is appended at the end. -/
def dictSet {β : Type} : List (String × β) → String → β → List (String × β)
  | [], k, v => [(k, v)]
  | (k1, w) :: rest, k, v =>
    if k1 = k then (k1, v) :: rest else (k1, w) :: dictSet rest k v

/-- `manifest_validator.ValidationIssue` (a `@dataclass` of five strings). -/
structure ValidationIssue where
  severity : String
  category : String
  message : String
  source_module : String := ""
  target : String := ""
deriving DecidableEq

/-- The `event_bus` / `shared_state` sections of a manifest dict as read by
the validator: each of `publishes` / `subscribes` is an optional dict whose
keys are the event/state names (values are opaque specs, never read by the
validator, so only the key lists are kept). -/
structure PubSubSection where
  publishes : Option (List String) := none
  subscribes : Option (List String) := none

/-- One entry of an `apis.static` / `apis.dynamic` list; the validator only
reads `api.get('method', '')`, so a missing `method` key is the empty
string. -/
structure ApiEntry where
  method : String := ""

/-- The `apis` section of a manifest dict. -/
structure ApisSection where
  static : Option (List ApiEntry) := none
  dynamic : Option (List ApiEntry) := none

/-- A manifest dict as consumed by `ManifestValidator.validate_all`:
`module['module']['name']`, the optional `event_bus` / `shared_state` /
`apis` sections, and `module['module'].get('dependencies', [])`. -/
structure VManifest where
  name : String
  event_bus : Option PubSubSection := none
  shared_state : Option PubSubSection := none
  apis : Option ApisSection := none
  dependencies : List String := []

/-- The five collection dicts of `ManifestValidator`. -/
structure ValidatorState where
  event_publishers : List (String × List String) := []
  event_subscribers : List (String × List String) := []
  state_publishers : List (String × List String) := []
  state_subscribers : List (String × List String) := []
  api_providers : List (String × String) := []

/-- Folding `for k in ks: dictAppendList d k name` (the body of each
publish/subscribe collection loop in `collect_manifest_data`). -/
def appendAll (d : List (String × List String)) (ks : List String) (name : String) :
    List (String × List String) :=
  ks.foldl (fun d k => dictAppendList d k name) d

/-- Keys iterated by the `event_bus.publishes` loop of
`collect_manifest_data`; an absent section or key skips the loop. -/
def eventPubKeys (m : VManifest) : List String :=
  match m.event_bus with
  | none => []
  | some s => s.publishes.getD []

/-- Keys iterated by the `event_bus.subscribes` loop. -/
def eventSubKeys (m : VManifest) : List String :=
  match m.event_bus with
  | none => []
  | some s => s.subscribes.getD []

/-- Keys iterated by the `shared_state.publishes` loop. -/
def statePubKeys (m : VManifest) : List String :=
  match m.shared_state with
  | none => []
  | some s => s.publishes.getD []

/-- Keys iterated by the `shared_state.subscribes` loop. -/
def stateSubKeys (m : VManifest) : List String :=
  match m.shared_state with
  | none => []
  | some s => s.subscribes.getD []

/-- The api entries iterated by `collect_manifest_data`: the `static` list
followed by the `dynamic` list (the loop order of
`for api_type in ['static', 'dynamic']`). -/
def apiEntries (m : VManifest) : List ApiEntry :=
  match m.apis with
  | none => []
  | some s => s.static.getD [] ++ s.dynamic.getD []

/-- The api collection loop: `if method: self.api_providers[method] = module_name`. -/
def applyApiEntries (d : List (String × String)) (name : String) (es : List ApiEntry) :
    List (String × String) :=
  es.foldl (fun d a => if a.method ≠ "" then dictSet d a.method name else d) d

/-- `ManifestValidator.collect_manifest_data(module_name, manifest)`. -/
def collectManifestData (st : ValidatorState) (module_name : String) (m : VManifest) :
    ValidatorState :=
  { event_publishers := appendAll st.event_publishers (eventPubKeys m) module_name,
    event_subscribers := appendAll st.event_subscribers (eventSubKeys m) module_name,
    state_publishers := appendAll st.state_publishers (statePubKeys m) module_name,
    state_subscribers := appendAll st.state_subscribers (stateSubKeys m) module_name,
    api_providers := applyApiEntries st.api_providers module_name (apiEntries m) }

/-- The data-collection loop of `validate_all`. -/
def collectAll (modules : List VManifest) : ValidatorState :=
  modules.foldl (fun st m => collectManifestData st m.name m) {}

/-- `event not in d or not d[event]` (the orphan / missing test). -/
def noEntries (d : List (String × List String)) (k : String) : Bool :=
  match List.lookup k d with
  | none => true
  | some l => l.isEmpty

/-- `ManifestValidator.validate_events`: orphan warnings, then missing-event
errors, then multiple-publisher infos, in the source's loop order. -/
def validateEvents (st : ValidatorState) : List ValidationIssue :=
  (st.event_publishers.flatMap fun ep =>
    if noEntries st.event_subscribers ep.1 then
      [{ severity := "WARNING", category := "EVENT",
         message := "Event " ++ sq ++ ep.1 ++ sq ++ " is published but has no subscribers",
         source_module := pyJoin ", " ep.2, target := ep.1 }]
    else []) ++
  (st.event_subscribers.flatMap fun es =>
    if noEntries st.event_publishers es.1 then
      [{ severity := "ERROR", category := "EVENT",
         message := "Event " ++ sq ++ es.1 ++ sq ++ " has subscribers but no publisher",
         source_module := pyJoin ", " es.2, target := es.1 }]
    else []) ++
  (st.event_publishers.flatMap fun ep =>
    if 1 < ep.2.length then
      [{ severity := "INFO", category := "EVENT",
         message := "Event " ++ sq ++ ep.1 ++ sq ++ " is published by multiple modules",
         source_module := pyJoin ", " ep.2, target := ep.1 }]
    else [])

/-- `ManifestValidator.validate_shared_state`. -/
def validateSharedState (st : ValidatorState) : List ValidationIssue :=
  (st.state_publishers.flatMap fun sp =>
    if noEntries st.state_subscribers sp.1 then
      [{ severity := "WARNING", category := "STATE",
         message := "State " ++ sq ++ sp.1 ++ sq ++ " is written but never read",
         source_module := pyJoin ", " sp.2, target := sp.1 }]
    else []) ++
  (st.state_subscribers.flatMap fun ss =>
    if noEntries st.state_publishers ss.1 then
      [{ severity := "ERROR", category := "STATE",
         message := "State " ++ sq ++ ss.1 ++ sq ++ " is read but never written",
         source_module := pyJoin ", " ss.2, target := ss.1 }]
    else []) ++
  (st.state_publishers.flatMap fun sp =>
    if 1 < sp.2.length then
      [{ severity := "WARNING", category := "STATE",
         message := "State " ++ sq ++ sp.1 ++ sq ++
           " is written by multiple modules - potential conflict",
         source_module := pyJoin ", " sp.2, target := sp.1 }]
    else [])

/-- The built-in system dependencies skipped by `validate_dependencies`. -/
def systemDeps : List String := ["ESPhal", "SharedState", "EventBus", "ConfigManager"]

/-- The issue appended by `validate_dependencies` for an unknown dependency. -/
def depIssue (module_name dep : String) : ValidationIssue :=
  { severity := "ERROR", category := "DEPENDENCY",
    message := "Module depends on non-existent module " ++ sq ++ dep ++ sq,
    source_module := module_name, target := dep }

/-- `ManifestValidator.validate_dependencies(modules)`. -/
def validateDependencies (modules : List VManifest) : List ValidationIssue :=
  let module_names := modules.map (fun m => m.name)
  modules.flatMap fun m =>
    m.dependencies.flatMap fun dep =>
      if dep ∈ systemDeps then []
      else if dep ∈ module_names then [] else [depIssue m.name dep]

/-- The sort key `severity_order.get(x.severity, 999)` with
`severity_order = {"ERROR": 0, "WARNING": 1, "INFO": 2}`. -/
def severityRank (i : ValidationIssue) : Nat :=
  if i.severity = "ERROR" then 0
  else if i.severity = "WARNING" then 1
  else if i.severity = "INFO" then 2
  else 999

/-- Comparison used by the issue sort. -/
def issueLE (a b : ValidationIssue) : Prop := severityRank a ≤ severityRank b

instance : DecidableRel issueLE := fun a b => Nat.decLe (severityRank a) (severityRank b)

instance : IsTotal ValidationIssue issueLE := ⟨fun a b => Nat.le_total (severityRank a) (severityRank b)⟩

instance : IsTrans ValidationIssue issueLE := ⟨fun _ _ _ => Nat.le_trans⟩

/-- `self.issues.sort(key=lambda x: severity_order.get(x.severity, 999))`:
a stable sort by severity rank (insertion sort here, Timsort in CPython;
both are stable, hence extensionally equal). -/
def sortIssues (issues : List ValidationIssue) : List ValidationIssue :=
  issues.insertionSort issueLE

/-- The issue list of `validate_all` in discovery order, before sorting:
event issues, then shared-state issues, then dependency issues. -/
def rawIssues (modules : List VManifest) : List ValidationIssue :=
  let st := collectAll modules
  validateEvents st ++ validateSharedState st ++ validateDependencies modules

/-- `ManifestValidator.validate_all(modules)`: collect, validate, sort, and
return `(not has_errors, issues)`. -/
def validateAll (modules : List VManifest) : Bool × List ValidationIssue :=
  let issues := sortIssues (rawIssues modules)
  let has_errors := issues.any (fun i => i.severity == "ERROR")
  (!has_errors, issues)

/-! ### The manifest processor (`process_manifests.py`) -/

/-- A Python object, as far as the processor stores or passes one
around untyped (UI blobs, attribute values). -/
inductive PyObj where
  | pyNone : PyObj
  | str : String → PyObj
  | list : List PyObj → PyObj
  | dict : List (String × PyObj) → PyObj

/-- Python `o[k]` / `k in o` on a (possibly non-dict) object: a dict gives
its entry, anything else has no keys. -/
def pyLookup (o : PyObj) (k : String) : Option PyObj :=
  match o with
  | .dict kvs => List.lookup k kvs
  | _ => none

def optStrPy : Option String → PyObj
  | none => .pyNone
  | some s => .str s

/-- An entry of an `apis.static` list in a module manifest file; the
parser adds the `module` key (`api['module'] = module.name`). -/
structure Api where
  method : Option String := none
  handler : Option String := none
  access_level : Option String := none
  module : Option String := none

def optEntry (k : String) : Option String → List (String × PyObj)
  | none => []
  | some s => [(k, .str s)]

/-- The api dict as a Python object (keys present only when set). -/
def Api.toPy (a : Api) : PyObj :=
  .dict (optEntry "method" a.method ++ optEntry "handler" a.handler ++
    optEntry "access_level" a.access_level ++ optEntry "module" a.module)

/-- The `ModuleInfo` dataclass of `process_manifests.py` with its exact
field list (note: `shared_state_keys`, not `shared_state`). -/
structure ModuleInfo where
  name : String
  type : String
  version : String
  description : String := ""
  priority : String := "NORMAL"
  dependencies : List String := []
  apis : List Api := []
  ui_pages : PyObj := .list []
  shared_state_keys : List String := []
  events : List String := []
  config_file : Option String := none
  manifest_path : String := ""
  ui : PyObj := .dict []
  driver_interface : Option String := none

/-- The Python attribute dictionary of a `ModuleInfo` instance: exactly the
dataclass fields, in declaration order. Nothing in the processor ever sets
any other attribute on a `ModuleInfo`, so Python attribute lookup succeeds
precisely on these names. -/
def ModuleInfo.attrs (m : ModuleInfo) : List (String × PyObj) :=
  [("name", .str m.name), ("type", .str m.type), ("version", .str m.version),
   ("description", .str m.description), ("priority", .str m.priority),
   ("dependencies", .list (m.dependencies.map .str)),
   ("apis", .list (m.apis.map Api.toPy)),
   ("ui_pages", m.ui_pages),
   ("shared_state_keys", .list (m.shared_state_keys.map .str)),
   ("events", .list (m.events.map .str)),
   ("config_file", optStrPy m.config_file),
   ("manifest_path", .str m.manifest_path),
   ("ui", m.ui),
   ("driver_interface", optStrPy m.driver_interface)]

/-- Python attribute access `module.<a>`: a missing attribute raises
`AttributeError`. -/
def ModuleInfo.getattr (m : ModuleInfo) (a : String) : Except String PyObj :=
  match List.lookup a m.attrs with
  | some v => Except.ok v
  | none => Except.error "AttributeError"

/-- The `module` section of a manifest file (every field read with `.get`
and a documented default). -/
structure ModuleSection where
  name : Option String := none
  type : Option String := none
  version : Option String := none
  description : Option String := none
  priority : Option String := none
  dependencies : Option (List String) := none
  driver_interface : Option String := none

/-- `event_bus` / `shared_state` section of a manifest file: `publishes`
and `subscribes` are dicts from key to an opaque spec object. -/
structure PubSubDoc where
  publishes : Option (List (String × PyObj)) := none
  subscribes : Option (List (String × PyObj)) := none

structure ConfigSection where
  config_file : Option String := none

structure ApisDoc where
  static : Option (List Api) := none
  dynamic : Option (List Api) := none

/-- A module manifest file after `json.load` (files that fail `json.load`
are caught in `parse_manifests` and never reach `parse_module_manifest`). -/
structure ManifestDoc where
  module : Option ModuleSection := none
  apis : Option ApisDoc := none
  ui : Option PyObj := none
  shared_state : Option PubSubDoc := none
  event_bus : Option PubSubDoc := none
  configuration : Option ConfigSection := none

/-- The mutable collections of `ManifestProcessor` touched while parsing
module manifests. -/
structure ProcState where
  modules : List ModuleInfo := []
  all_apis : List Api := []
  all_ui_schemas : List (String × PyObj) := []
  all_events : List (String × List String) := []

/-- `ManifestProcessor.parse_module_manifest`. `schemaLoaded` is whether
`self.module_schema` is a non-empty dict; `schemaOk` models the external
`jsonschema.validate` call (`false` = raises `ValidationError`, upon which
the method returns `None` before touching any collection). -/
def parseModuleManifest (schemaLoaded : Bool) (schemaOk : ManifestDoc → Bool)
    (manifest_path : String) (manifest : ManifestDoc) (st : ProcState) :
    Option ModuleInfo × ProcState :=
  if schemaLoaded && !(schemaOk manifest) then (none, st)
  else
    let module_data := manifest.module.getD {}
    let m0 : ModuleInfo :=
      { name := module_data.name.getD "",
        type := module_data.type.getD "STANDARD",
        version := module_data.version.getD "0.0.0",
        description := module_data.description.getD "",
        priority := module_data.priority.getD "NORMAL",
        dependencies := module_data.dependencies.getD [],
        manifest_path := manifest_path,
        driver_interface := module_data.driver_interface }
    let staticApis := (match manifest.apis with
      | none => []
      | some s => s.static.getD []).map (fun (a : Api) => { a with module := some m0.name })
    let m1 := { m0 with apis := m0.apis ++ staticApis }
    let st1 := { st with all_apis := st.all_apis ++ staticApis }
    let mst2 := match manifest.ui with
      | none => (m1, st1)
      | some ui_data =>
        let mU := { m1 with ui := ui_data }
        match pyLookup ui_data "static" with
        | none => (mU, st1)
        | some stat =>
          match pyLookup stat "pages" with
          | none => (mU, st1)
          | some pages =>
            ({ mU with ui_pages := pages },
             { st1 with all_ui_schemas := dictSet st1.all_ui_schemas mU.name ui_data })
    let m2 := mst2.1
    let st2 := mst2.2
    let m3 := match manifest.shared_state with
      | none => m2
      | some ssd =>
        { m2 with shared_state_keys :=
            m2.shared_state_keys ++ (ssd.publishes.getD []).map (fun (kv : String × PyObj) => kv.1) }
    let mst4 := match manifest.event_bus with
      | none => (m3, st2)
      | some ebd =>
        let evs := (ebd.publishes.getD []).map (fun (kv : String × PyObj) => kv.1)
        ({ m3 with events := m3.events ++ evs },
         { st2 with all_events := appendAll st2.all_events evs m3.name })
    let m4 := mst4.1
    let st3 := mst4.2
    let m5 := match manifest.configuration with
      | none => m4
      | some c => { m4 with config_file := c.config_file }
    (some m5, st3)

/-- The module-manifest loop of `ManifestProcessor.parse_manifests`
(driver manifests go to the separate `drivers` collection and are not
modelled; they touch none of the collections above). -/
def parseManifests (schemaLoaded : Bool) (schemaOk : ManifestDoc → Bool)
    (manifest_files : List (String × ManifestDoc)) (st : ProcState) : ProcState :=
  manifest_files.foldl (fun st pf =>
    match parseModuleManifest schemaLoaded schemaOk pf.1 pf.2 st with
    | (some m, st1) => { st1 with modules := st1.modules ++ [m] }
    | (none, st1) => st1) st

def pyKeys : PyObj → Option (List String)
  | .dict kvs => some (kvs.map (fun kv => kv.1))
  | _ => none

/-- Interpreting an arbitrary object stored under `manifest['shared_state']`
for the validator's key loops. -/
def pyToPubSub (o : PyObj) : PubSubSection :=
  { publishes := (pyLookup o "publishes").bind pyKeys,
    subscribes := (pyLookup o "subscribes").bind pyKeys }

/-- One iteration of the manifest-preparation loop of
`ManifestProcessor.validate_manifest_consistency`: `_module_to_dict`
(whose result has only the keys `module`, `ui`, `apis`, hence dependencies
default to `[]` and the api sections are a list, never a dict, in the
validator), then the `event_bus` dict from `module.events` filtered
through `self.all_events`, then `manifest['shared_state'] =
module.shared_state` — an attribute read that raises `AttributeError`,
since `ModuleInfo` has no `shared_state` field. -/
def moduleToVManifest (st : ProcState) (m : ModuleInfo) : Except String VManifest :=
  let event_pub := m.events.filter (fun e => (List.lookup e st.all_events).isSome)
  match m.getattr "shared_state" with
  | .error e => .error e
  | .ok ss =>
    .ok { name := m.name,
          event_bus := some { publishes := some event_pub, subscribes := some [] },
          shared_state := some (pyToPubSub ss),
          apis := none,
          dependencies := [] }

/-- The `for module in self.modules` preparation loop. -/
def buildAllManifests (st : ProcState) : List ModuleInfo → Except String (List VManifest)
  | [] => .ok []
  | m :: rest =>
    match moduleToVManifest st m with
    | .error e => .error e
    | .ok v =>
      match buildAllManifests st rest with
      | .error e => .error e
      | .ok vs => .ok (v :: vs)

/-- `ManifestProcessor.validate_manifest_consistency` (report writing is
I/O only and does not affect the returned verdict). -/
def validateManifestConsistency (st : ProcState) :
    Except String (Bool × List ValidationIssue) :=
  match buildAllManifests st st.modules with
  | .error e => .error e
  | .ok all_manifests => .ok (validateAll all_manifests)

/-- Observable outcome of one `process_all` run. -/
structure RunTrace where
  uncaught : Option String
  exitCode : Nat
  dependenciesResolved : Bool
  codeGenerated : Bool
  issues : List ValidationIssue
deriving DecidableEq

/-- `ManifestProcessor.process_all` after discovery and parsing:
step 3 validates consistency (`sys.exit(1)` on a false verdict, and an
uncaught exception also ends the interpreter with a non-zero exit code),
step 4 resolves dependencies, step 5 generates code. -/
def processAll (schemaLoaded : Bool) (schemaOk : ManifestDoc → Bool)
    (manifest_files : List (String × ManifestDoc)) : RunTrace :=
  match validateManifestConsistency (parseManifests schemaLoaded schemaOk manifest_files {}) with
  | .error e =>
    { uncaught := some e, exitCode := 1, dependenciesResolved := false,
      codeGenerated := false, issues := [] }
  | .ok vr =>
    if !vr.1 then
      { uncaught := none, exitCode := 1, dependenciesResolved := false,
        codeGenerated := false, issues := vr.2 }
    else
      { uncaught := none, exitCode := 0, dependenciesResolved := true,
        codeGenerated := true, issues := vr.2 }

/-! ### The event-registry emitter (`generate_event_registry`) -/

/-- The identifier transform `event.upper().replace('.', '_')`. Keys are
ASCII dotted identifiers and the pattern is the single character `.`, so
the transform is the character-wise map below. -/
def toConstName (key : String) : String :=
  String.mk (key.data.map (fun c => if c = '.' then '_' else c.toUpper))

/-- Lexicographic comparison of character lists by code point — the
comparison Python's `sorted` uses on `str`. -/
def charListLe : List Char → List Char → Bool
  | [], _ => true
  | _ :: _, [] => false
  | c :: cs, d :: ds => if c = d then charListLe cs ds else decide (c < d)

/-- `a <= b` on strings, by code points. -/
def strLe (a b : String) : Bool := charListLe a.data b.data

/-- Python `sorted(keys)` (ascending lexicographic order, stable). -/
def sortStrings (l : List String) : List String :=
  l.insertionSort (fun a b => strLe a b = true)

/-- The `Events` constant block: one line per key of `self.all_events`, in
sorted key order. -/
def eventConstLines (all_events : List (String × List String)) : List String :=
  (sortStrings (all_events.map (fun kv => kv.1))).map (fun event =>
    "    constexpr const char* " ++ toConstName event ++ " = \x22" ++ event ++ "\x22;")

/-- `ManifestProcessor._module_to_dict(module)`: a dict with exactly the
keys `module`, `ui` and `apis`. -/
def moduleToDictPy (m : ModuleInfo) : List (String × PyObj) :=
  [("module", .dict [("name", .str m.name), ("type", .str m.type),
     ("version", .str m.version), ("description", .str m.description),
     ("priority", .str m.priority), ("driver_interface", optStrPy m.driver_interface)]),
   ("ui", m.ui),
   ("apis", .list (m.apis.map Api.toPy))]

/-- One iteration of the `all_states` collection loop of
`generate_event_registry`: it checks
`'shared_state' in self._module_to_dict(module)` — a key that dict never
has — before copying state entries. -/
def allStatesStep (all_states : List (String × PyObj)) (m : ModuleInfo) :
    List (String × PyObj) :=
  match List.lookup "shared_state" (moduleToDictPy m) with
  | none => all_states
  | some ss =>
    match pyLookup ss "publishes" with
    | none => all_states
    | some pubs =>
      match pubs with
      | .dict kvs => kvs.foldl (fun d kv => dictSet d kv.1 kv.2) all_states
      | _ => all_states

/-- The `all_states` dict of `generate_event_registry`. -/
def collectAllStates (modules : List ModuleInfo) : List (String × PyObj) :=
  modules.foldl allStatesStep []

/-- The `States` constant block: one line per key of `all_states`, sorted. -/
def stateConstLines (modules : List ModuleInfo) : List String :=
  (sortStrings ((collectAllStates modules).map (fun kv => kv.1))).map (fun state =>
    "    constexpr const char* " ++ toConstName state ++ " = \x22" ++ state ++ "\x22;")

/-- The lines of `generated_system_contract.h` built by
`generate_event_registry`; `now` is `datetime.now().strftime(...)`.
(The `events_by_module` grouping computed at lines 1181–1190 is local and
never used, so it is omitted.) -/
def generateEventRegistryLines (now : String) (st : ProcState) : List String :=
  ["// AUTO-GENERATED FILE - DO NOT EDIT",
   "// Generated by process_manifests.py on " ++ now,
   "// For detailed documentation see: components/system_contract/",
   "",
   "#pragma once",
   "",
   "namespace ModESP \x7b",
   "",
   "namespace Events \x7b",
   "    // Event name constants for compile-time checking"]
  ++ eventConstLines st.all_events
  ++ ["\x7d // namespace Events",
      "",
      "namespace States \x7b",
      "    // SharedState key constants"]
  ++ stateConstLines st.modules
  ++ ["\x7d // namespace States",
      "",
      "\x7d // namespace ModESP"]

/-- The artifact content written by `generate_event_registry`
(`f.write('\n'.join(code))`). -/
def generateEventRegistryContent (now : String) (st : ProcState) : String :=
  pyJoin "\n" (generateEventRegistryLines now st)

/-! ### Specification-level helper definitions -/

/-- The contribution of the records `ms`, in record order, to the event
publishers of key `e`: one copy of `m.name` per occurrence of `e` among
`m`'s published event keys. -/
def publishersOf (ms : List VManifest) (e : String) : List String :=
  ms.flatMap (fun m => List.replicate ((eventPubKeys m).count e) m.name)

/-- Event subscribers of `e`, in record order. -/
def subscribersOf (ms : List VManifest) (e : String) : List String :=
  ms.flatMap (fun m => List.replicate ((eventSubKeys m).count e) m.name)

/-- State writers of key `k`, in record order. -/
def stateWritersOf (ms : List VManifest) (k : String) : List String :=
  ms.flatMap (fun m => List.replicate ((statePubKeys m).count k) m.name)

/-- State readers of key `k`, in record order. -/
def stateReadersOf (ms : List VManifest) (k : String) : List String :=
  ms.flatMap (fun m => List.replicate ((stateSubKeys m).count k) m.name)

/-- Combining an existing dict entry with a list of appended values. -/
def combineOpt (o : Option (List String)) (l : List String) : Option (List String) :=
  match o with
  | none => if l = [] then none else some l
  | some l0 => some (l0 ++ l)

/-- Dict lookup defaulted to the empty list. -/
def lookupD (d : List (String × List String)) (e : String) : List String :=
  (List.lookup e d).getD []

/-- The sequence of `api_providers[method] = module_name` assignments
performed while folding the records `ms`, in execution order. -/
def allApiWrites (ms : List VManifest) : List (String × String) :=
  ms.flatMap (fun m =>
    (apiEntries m).filterMap (fun a =>
      if a.method ≠ "" then some (a.method, m.name) else none))

/-- Replaying a sequence of dict assignments. -/
def applyWrites (d : List (String × String)) (ws : List (String × String)) :
    List (String × String) :=
  ws.foldl (fun d kv => dictSet d kv.1 kv.2) d

/-- A manifest that registers exactly one static api method. -/
def apiOnlyManifest (n meth : String) : VManifest :=
  { name := n, apis := some { static := some [{ method := meth }] } }

/-- A module declaring a dependency on the allow-listed `EventBus`. -/
def coreManifest : VManifest := { name := "Core", dependencies := ["EventBus"] }

instance : IsTotal String (fun a b => strLe a b = true) :=
  ⟨fun a b => by
    show charListLe a.data b.data = true ∨ charListLe b.data a.data = true
    generalize a.data = x
    generalize b.data = y
    induction x generalizing y with
    | nil => exact Or.inl rfl
    | cons c cs ih =>
      cases y with
      | nil => exact Or.inr rfl
      | cons d ds =>
        by_cases h : c = d
        · subst h
          rcases ih ds with h1 | h1
          · exact Or.inl (by simpa [charListLe] using h1)
          · exact Or.inr (by simpa [charListLe] using h1)
        · rcases lt_or_gt_of_ne h with hlt | hgt
          · exact Or.inl (by simp [charListLe, h, hlt])
          · exact Or.inr (by simp [charListLe, Ne.symm h, hgt])⟩

instance : IsTrans String (fun a b => strLe a b = true) :=
  ⟨fun a b c h1 h2 => by
    show charListLe a.data c.data = true
    have h1a : charListLe a.data b.data = true := h1
    have h2a : charListLe b.data c.data = true := h2
    clear h1 h2
    generalize a.data = x at h1a ⊢
    generalize b.data = y at h1a h2a
    generalize c.data = z at h2a ⊢
    induction x generalizing y z with
    | nil => rfl
    | cons u us ih =>
      cases y with
      | nil => simp [charListLe] at h1a
      | cons v vs =>
        cases z with
        | nil => simp [charListLe] at h2a
        | cons w ws =>
          by_cases huv : u = v
          · subst huv
            by_cases huw : u = w
            · subst huw
              simp only [charListLe, if_pos rfl] at h1a h2a ⊢
              exact ih vs h1a ws h2a
            · simp [charListLe, huw] at h2a ⊢
              exact h2a
          · simp [charListLe, huv] at h1a
            by_cases hvw : v = w
            · subst hvw
              simp [charListLe, huv]
              exact h1a
            · simp [charListLe, hvw] at h2a
              have huw : u < w := lt_trans h1a h2a
              simp [charListLe, ne_of_lt huw]
              exact huw⟩

instance : IsAntisymm String (fun a b => strLe a b = true) :=
  ⟨fun a b h1 h2 => by
    have h1a : charListLe a.data b.data = true := h1
    have h2a : charListLe b.data a.data = true := h2
    clear h1 h2
    have hdata : a.data = b.data := by
      generalize a.data = x at h1a h2a
      generalize b.data = y at h1a h2a
      induction x generalizing y with
      | nil =>
        cases y with
        | nil => rfl
        | cons d ds => simp [charListLe] at h2a
      | cons c cs ih =>
        cases y with
        | nil => simp [charListLe] at h1a
        | cons d ds =>
          by_cases h : c = d
          · subst h
            simp only [charListLe, if_pos rfl] at h1a h2a
            rw [ih ds h1a h2a]
          · simp [charListLe, h] at h1a
            simp [charListLe, Ne.symm h] at h2a
            exact absurd h2a (asymm h1a)
    cases a
    cases b
    exact congrArg String.mk hdata⟩

/-! ### Helper lemmas -/

/-- `shared_state` is not among the `ModuleInfo` attributes. -/
theorem getattr_shared_state (m : ModuleInfo) :
    m.getattr "shared_state" = .error "AttributeError" := rfl

/-- The manifest-preparation loop raises on its first module. -/
theorem buildAllManifests_cons (st : ProcState) (m : ModuleInfo) (rest : List ModuleInfo) :
    buildAllManifests st (m :: rest) = .error "AttributeError" := rfl

/-- With at least one parsed module, `validate_manifest_consistency` raises
`AttributeError`. -/
theorem validateManifestConsistency_error (st : ProcState) (h : st.modules ≠ []) :
    validateManifestConsistency st = .error "AttributeError" := by
  obtain ⟨m, rest, hm⟩ := List.exists_cons_of_ne_nil h
  unfold validateManifestConsistency
  rw [hm, buildAllManifests_cons]

/-! ### Claim theorems -/

/-- Claim C1: whenever at least one module manifest was successfully parsed,
the consistency-validation step of `process_all` raises an uncaught
`AttributeError` at `module.shared_state` (the `ModuleInfo` dataclass defines
`shared_state_keys` but no `shared_state` field), so the run aborts before
dependency resolution and code emission are reached. -/
theorem c1_consistency_step_crashes (schemaLoaded : Bool) (schemaOk : ManifestDoc → Bool)
    (manifest_files : List (String × ManifestDoc))
    (h : (parseManifests schemaLoaded schemaOk manifest_files {}).modules ≠ []) :
    processAll schemaLoaded schemaOk manifest_files =
      { uncaught := some "AttributeError", exitCode := 1, dependenciesResolved := false,
        codeGenerated := false, issues := [] } := by
  unfold processAll
  rw [validateManifestConsistency_error _ h]

/-- Witness for C1: a single well-formed manifest parses into one module and
the run crashes with `AttributeError` before resolution and emission. -/
theorem c1_consistency_step_crashes_witness :
    (parseManifests false (fun _ => true)
        [("w/module_manifest.json", { module := some { name := some "WitnessModule" } })] {}).modules ≠ [] ∧
    processAll false (fun _ => true)
        [("w/module_manifest.json", { module := some { name := some "WitnessModule" } })] =
      { uncaught := some "AttributeError", exitCode := 1, dependenciesResolved := false,
        codeGenerated := false, issues := [] } := by
  have h : (parseManifests false (fun _ => true)
      [("w/module_manifest.json", { module := some { name := some "WitnessModule" } })] {}).modules ≠ [] := by
    have hlen : (parseManifests false (fun _ => true)
        [("w/module_manifest.json", { module := some { name := some "WitnessModule" } })] {}).modules.length = 1 := rfl
    intro hc
    rw [hc] at hlen
    simp at hlen
  exact ⟨h, c1_consistency_step_crashes _ _ _ h⟩

/-- Claim C3 (code bug): `validate_all` does return a true verdict exactly
when the returned issue list has no ERROR-severity issue; but the pipeline
gate is unreachable: on a failing input with one parsed module and zero
validation issues, the run still aborts (non-zero exit, no emission) because
the consistency step raises `AttributeError` first — refuting the claimed
"fails iff at least one ERROR issue" at the process level. -/
theorem c3_gate_verdict_and_failing_input :
    (∀ modules : List VManifest,
      (validateAll modules).1 = !((validateAll modules).2.any (fun i => i.severity == "ERROR"))) ∧
    processAll false (fun _ => true)
        [("components/sensor/module_manifest.json",
          { module := some { name := some "SensorModule" } })] =
      { uncaught := some "AttributeError", exitCode := 1, dependenciesResolved := false,
        codeGenerated := false, issues := [] } :=
  ⟨fun _ => rfl, rfl⟩

/-- Claim C10: when a module schema is loaded and the manifest content fails
schema validation, `parse_module_manifest` returns `None` and leaves every
processor collection untouched (the schema check precedes every mutation). -/
theorem c10_parse_atomic_on_schema_failure (schemaOk : ManifestDoc → Bool)
    (manifest_path : String) (manifest : ManifestDoc) (st : ProcState)
    (h : schemaOk manifest = false) :
    parseModuleManifest true schemaOk manifest_path manifest st = (none, st) := by
  simp [parseModuleManifest, h]

/-- Witness for C10: a concrete manifest rejected by the schema leaves the
initial state unchanged. -/
theorem c10_parse_atomic_on_schema_failure_witness :
    ((fun _ : ManifestDoc => false) { module := some { name := some "X" } } = false) ∧
    parseModuleManifest true (fun _ => false) "p/module_manifest.json"
        { module := some { name := some "X" } } {} = (none, {}) :=
  ⟨rfl, c10_parse_atomic_on_schema_failure _ _ _ _ rfl⟩

/-- Counterexample to C5 as stated: the claimed allow-list contains `HAL`,
but a module depending on `HAL` (with no parsed module of that name) gets a
DEPENDENCY ERROR — the code's allow-list is
`ESPhal, SharedState, EventBus, ConfigManager`. -/
theorem c5_counterexample :
    ("HAL" ∈ ["HAL", "SharedStateStore", "EventBus", "ConfigManager"]) ∧
    validateDependencies [{ name := "M", dependencies := ["HAL"] }] = [depIssue "M" "HAL"] :=
  ⟨by decide, rfl⟩

/-- Claim C5 as amended: a declared dependency yields no issue iff it is a
parsed module name or a member of the built-in allow-list
`ESPhal, SharedState, EventBus, ConfigManager`; otherwise
`validate_dependencies` emits a DEPENDENCY-category ERROR issue naming it. -/
theorem c5_dependency_rule (modules : List VManifest) (m : VManifest) (dep : String)
    (hm : m ∈ modules) (hdep : dep ∈ m.dependencies) :
    ((dep ∈ systemDeps ∨ dep ∈ modules.map (fun x => x.name)) ↔
      ∀ i ∈ validateDependencies modules, i.target ≠ dep) ∧
    (dep ∉ systemDeps → dep ∉ modules.map (fun x => x.name) →
      depIssue m.name dep ∈ validateDependencies modules) := by
  have hexists : dep ∉ systemDeps → dep ∉ modules.map (fun x => x.name) →
      depIssue m.name dep ∈ validateDependencies modules := by
    intro h1 h2
    unfold validateDependencies
    rw [List.mem_flatMap]
    refine ⟨m, hm, ?_⟩
    rw [List.mem_flatMap]
    refine ⟨dep, hdep, ?_⟩
    simp [h1, h2]
  refine ⟨⟨?_, ?_⟩, hexists⟩
  · rintro hok i hi hit
    unfold validateDependencies at hi
    rw [List.mem_flatMap] at hi
    obtain ⟨m1, _, hi1⟩ := hi
    rw [List.mem_flatMap] at hi1
    obtain ⟨d1, _, hi2⟩ := hi1
    by_cases hs : d1 ∈ systemDeps
    · simp [hs] at hi2
    · by_cases hn : d1 ∈ modules.map (fun x => x.name)
      · simp [hs, hn] at hi2
      · simp [hs, hn, depIssue] at hi2
        subst hi2
        simp [depIssue] at hit
        subst hit
        rcases hok with hok | hok
        · exact hs hok
        · exact hn hok
  · intro hall
    by_contra hneg
    push_neg at hneg
    exact hall _ (hexists hneg.1 hneg.2) rfl

/-- Witness for C5: a module depending on the allow-listed `EventBus`. -/
theorem c5_dependency_rule_witness :
    ((("EventBus" ∈ systemDeps ∨ "EventBus" ∈ ([coreManifest].map (fun x => x.name))) ↔
      ∀ i ∈ validateDependencies [coreManifest], i.target ≠ "EventBus") ∧
     ("EventBus" ∉ systemDeps → "EventBus" ∉ ([coreManifest].map (fun x => x.name)) →
      depIssue coreManifest.name "EventBus" ∈ validateDependencies [coreManifest])) :=
  c5_dependency_rule [coreManifest] coreManifest "EventBus" (by simp) (by simp [coreManifest])

/-- Counterexample to C6 as stated: the distinct keys `a.b` and `a_b` both
map to the identifier `A_B`, yet the pipeline flags nothing — validation of
the colliding setup reports zero issues and a passing verdict. -/
theorem c6_counterexample :
    ("a.b" ≠ "a_b") ∧ toConstName "a.b" = toConstName "a_b" ∧
    validateAll [{ name := "M1", event_bus := some { publishes := some ["a.b", "a_b"] } },
                 { name := "M2", event_bus := some { subscribes := some ["a.b", "a_b"] } }]
      = (true, []) :=
  ⟨by decide, rfl, rfl⟩

/-- Claim C6 as amended: there is no identifier-collision check anywhere in
the pipeline; the emitter silently emits one constant line per distinct key,
so `a.b` and `a_b` produce two constant definitions that share the
identifier `A_B`. -/
theorem c6_no_collision_check :
    eventConstLines [("a.b", ["M1"]), ("a_b", ["M1"])] =
      ["    constexpr const char* A_B = \x22a.b\x22;",
       "    constexpr const char* A_B = \x22a_b\x22;"] := rfl

/-- Counterexample to C7 as stated: two modules registering the api method
`getData` are resolved by last-writer-wins in `api_providers`, and the full
validation run reports no issue at all. -/
theorem c7_counterexample :
    (collectAll [{ name := "ModuleA", apis := some { static := some [{ method := "getData" }] } },
                 { name := "ModuleB", apis := some { static := some [{ method := "getData" }] } }]).api_providers
      = [("getData", "ModuleB")] ∧
    (validateAll [{ name := "ModuleA", apis := some { static := some [{ method := "getData" }] } },
                  { name := "ModuleB", apis := some { static := some [{ method := "getData" }] } }]).2 = [] :=
  ⟨rfl, rfl⟩

/-- Claim C7 as amended: for any two modules registering the same non-empty
method name, the later registration overwrites the earlier one in
`api_providers` (last writer wins) and the validator reports no issue. -/
theorem c7_last_writer_wins (n1 n2 meth : String) (h : meth ≠ "") :
    (collectAll [apiOnlyManifest n1 meth, apiOnlyManifest n2 meth]).api_providers = [(meth, n2)] ∧
    (validateAll [apiOnlyManifest n1 meth, apiOnlyManifest n2 meth]).2 = [] := by
  constructor
  · simp [collectAll, collectManifestData, apiOnlyManifest, apiEntries, applyApiEntries,
      appendAll, eventPubKeys, eventSubKeys, statePubKeys, stateSubKeys, dictSet, h]
  · simp [validateAll, rawIssues, sortIssues, collectAll, collectManifestData, apiOnlyManifest,
      apiEntries, applyApiEntries, appendAll, eventPubKeys, eventSubKeys, statePubKeys,
      stateSubKeys, validateEvents, validateSharedState, validateDependencies, dictSet, h,
      List.insertionSort]

/-- Witness for C7. -/
theorem c7_last_writer_wins_witness :
    ("getData" ≠ "") ∧
    ((collectAll [apiOnlyManifest "ModuleA" "getData", apiOnlyManifest "ModuleB" "getData"]).api_providers
        = [("getData", "ModuleB")] ∧
     (validateAll [apiOnlyManifest "ModuleA" "getData", apiOnlyManifest "ModuleB" "getData"]).2 = []) :=
  ⟨by decide, c7_last_writer_wins "ModuleA" "ModuleB" "getData" (by decide)⟩

set_option maxRecDepth 40000 in
/-- Counterexample to C2 as stated: the event-registry artifact embeds the
run's wall-clock timestamp on its second line, so two runs over identical
manifest contents at different clock times produce different bytes. -/
theorem c2_counterexample :
    generateEventRegistryContent "2025-01-01 10:00:00" {} ≠
    generateEventRegistryContent "2025-01-01 10:00:01" {} := by decide

/-! ### Stability of the issue sort -/

/-- Inserting an element that satisfies `p` and compares `≤` to every other
`p`-element lands in front of the `p`-elements already present. -/
theorem filter_orderedInsert_pos (p : ValidationIssue → Bool) (a : ValidationIssue)
    (l : List ValidationIssue) (hpa : p a = true) (hr : ∀ b, p b = true → issueLE a b) :
    (l.orderedInsert issueLE a).filter p = a :: l.filter p := by
  induction l with
  | nil => simp [List.orderedInsert, hpa]
  | cons b t ih =>
    by_cases h : issueLE a b
    · simp [List.orderedInsert, h, hpa]
    · have hpb : p b = false := by
        cases hp : p b
        · rfl
        · exact absurd (hr b hp) h
      simp [List.orderedInsert, h, hpb, ih]

/-- Inserting an element that fails `p` does not change the `p`-filtered
subsequence. -/
theorem filter_orderedInsert_neg (p : ValidationIssue → Bool) (a : ValidationIssue)
    (l : List ValidationIssue) (hpa : p a = false) :
    (l.orderedInsert issueLE a).filter p = l.filter p := by
  induction l with
  | nil => simp [List.orderedInsert, hpa]
  | cons b t ih =>
    by_cases h : issueLE a b
    · simp [List.orderedInsert, h, hpa]
    · simp [List.orderedInsert, h, List.filter_cons, ih]

/-- Stability: for a predicate that only holds within one severity rank,
sorting preserves the filtered subsequence. -/
theorem filter_insertionSort (p : ValidationIssue → Bool)
    (hp : ∀ a b, p a = true → p b = true → severityRank a = severityRank b)
    (l : List ValidationIssue) :
    (l.insertionSort issueLE).filter p = l.filter p := by
  induction l with
  | nil => rfl
  | cons a t ih =>
    by_cases hpa : p a = true
    · rw [List.insertionSort,
        filter_orderedInsert_pos p a _ hpa (fun b hb => (hp a b hpa hb).le), ih]
      simp [hpa]
    · have hpa1 : p a = false := by
        cases hp2 : p a
        · rfl
        · exact absurd hp2 hpa
      rw [List.insertionSort, filter_orderedInsert_neg p a _ hpa1, ih]
      simp [hpa1]

/-- Claim C9: the issue list returned by `validate_all` is sorted ascending
by severity rank (ERROR=0, WARNING=1, INFO=2), and within any one severity
the issues keep their discovery order (`rawIssues` is the pre-sort list in
discovery order). -/
theorem c9_issues_sorted_and_stable (modules : List VManifest) :
    List.Sorted issueLE (validateAll modules).2 ∧
    ∀ s : String,
      (validateAll modules).2.filter (fun i => i.severity == s) =
        (rawIssues modules).filter (fun i => i.severity == s) := by
  constructor
  · exact List.sorted_insertionSort issueLE (rawIssues modules)
  · intro s
    refine filter_insertionSort _ (fun a b ha hb => ?_) (rawIssues modules)
    have ha1 : a.severity = s := by simpa using ha
    have hb1 : b.severity = s := by simpa using hb
    simp only [severityRank, ha1, hb1]

/-! ### Characterizing the collected tables -/

theorem combineOpt_nil (o : Option (List String)) : combineOpt o [] = o := by
  cases o <;> simp [combineOpt]

theorem combineOpt_assoc (o : Option (List String)) (l1 l2 : List String) :
    combineOpt (combineOpt o l1) l2 = combineOpt o (l1 ++ l2) := by
  cases o with
  | none =>
    by_cases h1 : l1 = []
    · subst h1
      simp [combineOpt]
    · by_cases h2 : l2 = [] <;> simp [combineOpt, h1, h2]
  | some l0 => simp [combineOpt]

theorem lookup_dictAppendList (d : List (String × List String)) (k v e : String) :
    List.lookup e (dictAppendList d k v) =
      if e = k then some ((List.lookup e d).getD [] ++ [v]) else List.lookup e d := by
  induction d with
  | nil =>
    by_cases he : e = k
    · simp [dictAppendList, List.lookup, he]
    · simp [dictAppendList, List.lookup, he, beq_false_of_ne he]
  | cons hd tl ih =>
    obtain ⟨k1, l⟩ := hd
    by_cases hk : k1 = k
    · subst hk
      by_cases he : e = k1
      · simp [dictAppendList, List.lookup, he]
      · simp [dictAppendList, List.lookup, he, beq_false_of_ne he]
    · by_cases he : e = k1
      · subst he
        have hek : ¬(e = k) := hk
        simp [dictAppendList, hk, List.lookup, hek]
      · simp [dictAppendList, hk, List.lookup, he, beq_false_of_ne he, ih]

theorem lookup_appendAll (ks : List String) (d : List (String × List String))
    (name e : String) :
    List.lookup e (appendAll d ks name) =
      combineOpt (List.lookup e d) (List.replicate (ks.count e) name) := by
  induction ks generalizing d with
  | nil => simp [appendAll, combineOpt_nil]
  | cons k ks ih =>
    rw [show appendAll d (k :: ks) name = appendAll (dictAppendList d k name) ks name from rfl,
      ih, lookup_dictAppendList]
    by_cases he : e = k
    · subst he
      rw [if_pos rfl]
      have hc : (e :: ks).count e = ks.count e + 1 := by simp [List.count_cons]
      rw [hc]
      cases hld : List.lookup e d with
      | none => simp [combineOpt, List.replicate_succ]
      | some l0 => simp [combineOpt, List.replicate_succ]
    · rw [if_neg he]
      have hc : (k :: ks).count e = ks.count e := by simp [List.count_cons, Ne.symm he]
      rw [hc]

theorem foldCollect_event_publishers (ms : List VManifest) (st : ValidatorState) :
    (ms.foldl (fun st m => collectManifestData st m.name m) st).event_publishers =
      ms.foldl (fun d m => appendAll d (eventPubKeys m) m.name) st.event_publishers := by
  induction ms generalizing st with
  | nil => rfl
  | cons m rest ih =>
    simp only [List.foldl_cons]
    exact ih _

theorem foldCollect_event_subscribers (ms : List VManifest) (st : ValidatorState) :
    (ms.foldl (fun st m => collectManifestData st m.name m) st).event_subscribers =
      ms.foldl (fun d m => appendAll d (eventSubKeys m) m.name) st.event_subscribers := by
  induction ms generalizing st with
  | nil => rfl
  | cons m rest ih =>
    simp only [List.foldl_cons]
    exact ih _

theorem foldCollect_state_publishers (ms : List VManifest) (st : ValidatorState) :
    (ms.foldl (fun st m => collectManifestData st m.name m) st).state_publishers =
      ms.foldl (fun d m => appendAll d (statePubKeys m) m.name) st.state_publishers := by
  induction ms generalizing st with
  | nil => rfl
  | cons m rest ih =>
    simp only [List.foldl_cons]
    exact ih _

theorem foldCollect_state_subscribers (ms : List VManifest) (st : ValidatorState) :
    (ms.foldl (fun st m => collectManifestData st m.name m) st).state_subscribers =
      ms.foldl (fun d m => appendAll d (stateSubKeys m) m.name) st.state_subscribers := by
  induction ms generalizing st with
  | nil => rfl
  | cons m rest ih =>
    simp only [List.foldl_cons]
    exact ih _

theorem foldCollect_api_providers (ms : List VManifest) (st : ValidatorState) :
    (ms.foldl (fun st m => collectManifestData st m.name m) st).api_providers =
      ms.foldl (fun d m => applyApiEntries d m.name (apiEntries m)) st.api_providers := by
  induction ms generalizing st with
  | nil => rfl
  | cons m rest ih =>
    simp only [List.foldl_cons]
    exact ih _

theorem lookup_foldAppend (ms : List VManifest) (keysOf : VManifest → List String)
    (d : List (String × List String)) (e : String) :
    List.lookup e (ms.foldl (fun d m => appendAll d (keysOf m) m.name) d) =
      combineOpt (List.lookup e d)
        (ms.flatMap (fun m => List.replicate ((keysOf m).count e) m.name)) := by
  induction ms generalizing d with
  | nil => simp [combineOpt_nil]
  | cons m rest ih =>
    rw [List.foldl_cons, ih, lookup_appendAll, combineOpt_assoc]
    simp

theorem lookup_event_publishers (ms : List VManifest) (e : String) :
    List.lookup e (collectAll ms).event_publishers = combineOpt none (publishersOf ms e) := by
  rw [collectAll, foldCollect_event_publishers, lookup_foldAppend]
  rfl

theorem lookup_event_subscribers (ms : List VManifest) (e : String) :
    List.lookup e (collectAll ms).event_subscribers = combineOpt none (subscribersOf ms e) := by
  rw [collectAll, foldCollect_event_subscribers, lookup_foldAppend]
  rfl

theorem lookup_state_publishers (ms : List VManifest) (k : String) :
    List.lookup k (collectAll ms).state_publishers = combineOpt none (stateWritersOf ms k) := by
  rw [collectAll, foldCollect_state_publishers, lookup_foldAppend]
  rfl

theorem lookup_state_subscribers (ms : List VManifest) (k : String) :
    List.lookup k (collectAll ms).state_subscribers = combineOpt none (stateReadersOf ms k) := by
  rw [collectAll, foldCollect_state_subscribers, lookup_foldAppend]
  rfl

theorem lookupD_combineOpt_none (l : List String) : (combineOpt none l).getD [] = l := by
  by_cases h : l = [] <;> simp [combineOpt, h]

theorem lookupD_event_publishers (ms : List VManifest) (e : String) :
    lookupD (collectAll ms).event_publishers e = publishersOf ms e := by
  rw [lookupD, lookup_event_publishers, lookupD_combineOpt_none]

theorem lookupD_event_subscribers (ms : List VManifest) (e : String) :
    lookupD (collectAll ms).event_subscribers e = subscribersOf ms e := by
  rw [lookupD, lookup_event_subscribers, lookupD_combineOpt_none]

theorem lookupD_state_publishers (ms : List VManifest) (k : String) :
    lookupD (collectAll ms).state_publishers k = stateWritersOf ms k := by
  rw [lookupD, lookup_state_publishers, lookupD_combineOpt_none]

theorem lookupD_state_subscribers (ms : List VManifest) (k : String) :
    lookupD (collectAll ms).state_subscribers k = stateReadersOf ms k := by
  rw [lookupD, lookup_state_subscribers, lookupD_combineOpt_none]

/-! ### Characterizing the api-providers dict (last-writer-wins) -/

theorem lookup_dictSet (d : List (String × String)) (k v e : String) :
    List.lookup e (dictSet d k v) = if e = k then some v else List.lookup e d := by
  induction d with
  | nil =>
    by_cases he : e = k
    · simp [dictSet, List.lookup, he]
    · simp [dictSet, List.lookup, he, beq_false_of_ne he]
  | cons hd tl ih =>
    obtain ⟨k1, w⟩ := hd
    by_cases hk : k1 = k
    · subst hk
      by_cases he : e = k1
      · simp [dictSet, List.lookup, he]
      · simp [dictSet, List.lookup, he, beq_false_of_ne he]
    · by_cases he : e = k1
      · subst he
        have hek : ¬(e = k) := hk
        simp [dictSet, hk, List.lookup, hek]
      · simp [dictSet, hk, List.lookup, he, beq_false_of_ne he, ih]

theorem applyApiEntries_eq (es : List ApiEntry) (d : List (String × String)) (name : String) :
    applyApiEntries d name es =
      applyWrites d (es.filterMap (fun a =>
        if a.method ≠ "" then some (a.method, name) else none)) := by
  induction es generalizing d with
  | nil => rfl
  | cons a es ih =>
    by_cases hm : a.method ≠ ""
    · rw [show applyApiEntries d name (a :: es) =
          applyApiEntries (if a.method ≠ "" then dictSet d a.method name else d) name es from rfl]
      rw [List.filterMap_cons, if_pos hm, if_pos hm]
      rw [show applyWrites d ((a.method, name) :: es.filterMap (fun a =>
          if a.method ≠ "" then some (a.method, name) else none)) =
        applyWrites (dictSet d a.method name) (es.filterMap (fun a =>
          if a.method ≠ "" then some (a.method, name) else none)) from rfl]
      exact ih _
    · rw [show applyApiEntries d name (a :: es) =
          applyApiEntries (if a.method ≠ "" then dictSet d a.method name else d) name es from rfl]
      rw [List.filterMap_cons, if_neg hm, if_neg hm]
      exact ih _

theorem applyWrites_append (d : List (String × String)) (ws1 ws2 : List (String × String)) :
    applyWrites d (ws1 ++ ws2) = applyWrites (applyWrites d ws1) ws2 := by
  rw [applyWrites, applyWrites, applyWrites, List.foldl_append]

theorem collectAll_api_providers (ms : List VManifest) :
    (collectAll ms).api_providers = applyWrites [] (allApiWrites ms) := by
  have h : ∀ (ms : List VManifest) (d : List (String × String)),
      List.foldl (fun d m => applyApiEntries d m.name (apiEntries m)) d ms =
        applyWrites d (allApiWrites ms) := by
    intro ms
    induction ms with
    | nil => intro d; rfl
    | cons m rest ih =>
      intro d
      rw [List.foldl_cons, applyApiEntries_eq, allApiWrites, List.flatMap_cons,
        applyWrites_append]
      exact ih _
  rw [collectAll, foldCollect_api_providers]
  exact h ms []

theorem lookup_applyWrites (ws : List (String × String)) (d : List (String × String))
    (e : String) :
    List.lookup e (applyWrites d ws) =
      ((ws.filter (fun kv => kv.1 == e)).getLast?).elim (List.lookup e d)
        (fun kv => some kv.2) := by
  induction ws generalizing d with
  | nil => rfl
  | cons w ws ih =>
    rw [show applyWrites d (w :: ws) = applyWrites (dictSet d w.1 w.2) ws from rfl, ih]
    by_cases hw : w.1 = e
    · have hfil : (w :: ws).filter (fun kv => kv.1 == e) =
          w :: ws.filter (fun kv => kv.1 == e) := by
        simp [List.filter_cons, hw]
      rw [hfil]
      cases hf : ws.filter (fun kv => kv.1 == e) with
      | nil => simp [hf, lookup_dictSet, hw.symm]
      | cons x xs =>
        simp only [List.getLast?_cons_cons]
        cases hlast : (x :: xs).getLast? with
        | none => simp at hlast
        | some z => simp [hlast]
    · have hfil : (w :: ws).filter (fun kv => kv.1 == e) =
          ws.filter (fun kv => kv.1 == e) := by
        simp [List.filter_cons, beq_false_of_ne hw]
      rw [hfil]
      have hlk : List.lookup e (dictSet d w.1 w.2) = List.lookup e d := by
        rw [lookup_dictSet, if_neg (fun h => hw h.symm)]
      rw [hlk]

/-! ### Claim C8 -/

/-- Counterexample to C8 as stated: swapping two records that publish the
same event produces a different publishers table (the per-key module lists
are kept in fold order). -/
theorem c8_counterexample :
    (([{ name := "A", event_bus := some { publishes := some ["e"] } },
       { name := "B", event_bus := some { publishes := some ["e"] } }] : List VManifest).Perm
      [{ name := "B", event_bus := some { publishes := some ["e"] } },
       { name := "A", event_bus := some { publishes := some ["e"] } }]) ∧
    (collectAll [{ name := "A", event_bus := some { publishes := some ["e"] } },
                 { name := "B", event_bus := some { publishes := some ["e"] } }]).event_publishers ≠
      (collectAll [{ name := "B", event_bus := some { publishes := some ["e"] } },
                   { name := "A", event_bus := some { publishes := some ["e"] } }]).event_publishers := by
  constructor
  · exact List.Perm.swap _ _ _
  · decide

/-- Claim C8 as amended: folding the records in either order yields the
same per-key multiset of module names in each of the four
publisher/subscriber tables, and the same api-providers entry for every
method registered at most once overall (with two registrations the
last-writer-wins entry is genuinely order-dependent). -/
theorem c8_tables_order_independent_up_to_perm (ms1 ms2 : List VManifest)
    (hp : ms1.Perm ms2) :
    (∀ e, (lookupD (collectAll ms1).event_publishers e).Perm
            (lookupD (collectAll ms2).event_publishers e)) ∧
    (∀ e, (lookupD (collectAll ms1).event_subscribers e).Perm
            (lookupD (collectAll ms2).event_subscribers e)) ∧
    (∀ k, (lookupD (collectAll ms1).state_publishers k).Perm
            (lookupD (collectAll ms2).state_publishers k)) ∧
    (∀ k, (lookupD (collectAll ms1).state_subscribers k).Perm
            (lookupD (collectAll ms2).state_subscribers k)) ∧
    (∀ meth, ((allApiWrites ms1).filter (fun kv => kv.1 == meth)).length ≤ 1 →
        List.lookup meth (collectAll ms1).api_providers =
          List.lookup meth (collectAll ms2).api_providers) := by
  refine ⟨fun e => ?_, fun e => ?_, fun k => ?_, fun k => ?_, fun meth hlen => ?_⟩
  · rw [lookupD_event_publishers, lookupD_event_publishers, publishersOf, publishersOf]
    exact hp.flatMap_right _
  · rw [lookupD_event_subscribers, lookupD_event_subscribers, subscribersOf, subscribersOf]
    exact hp.flatMap_right _
  · rw [lookupD_state_publishers, lookupD_state_publishers, stateWritersOf, stateWritersOf]
    exact hp.flatMap_right _
  · rw [lookupD_state_subscribers, lookupD_state_subscribers, stateReadersOf, stateReadersOf]
    exact hp.flatMap_right _
  · rw [collectAll_api_providers, collectAll_api_providers, lookup_applyWrites,
      lookup_applyWrites]
    have hperm : ((allApiWrites ms1).filter (fun kv => kv.1 == meth)).Perm
        ((allApiWrites ms2).filter (fun kv => kv.1 == meth)) :=
      ((hp.flatMap_right _).filter _)
    have heq : (allApiWrites ms1).filter (fun kv => kv.1 == meth) =
        (allApiWrites ms2).filter (fun kv => kv.1 == meth) := by
      rcases hl : (allApiWrites ms1).filter (fun kv => kv.1 == meth) with _ | ⟨x, xs⟩
      · rw [hl] at hperm
        rw [hl]
        exact (hperm.symm.eq_nil).symm
      · rw [hl] at hperm hlen
        rw [hl]
        cases xs with
        | nil => exact (List.perm_singleton.mp hperm.symm).symm
        | cons y ys => simp at hlen
    rw [heq]

/-- Witness for C8: two swapped singleton-publisher records. -/
theorem c8_tables_order_independent_witness :
    (([{ name := "A", event_bus := some { publishes := some ["e"] } },
       { name := "B", event_bus := some { subscribes := some ["e"] } }] : List VManifest).Perm
      [{ name := "B", event_bus := some { subscribes := some ["e"] } },
       { name := "A", event_bus := some { publishes := some ["e"] } }]) ∧
    ((∀ e, (lookupD (collectAll [{ name := "A", event_bus := some { publishes := some ["e"] } },
              { name := "B", event_bus := some { subscribes := some ["e"] } }]).event_publishers e).Perm
            (lookupD (collectAll [{ name := "B", event_bus := some { subscribes := some ["e"] } },
              { name := "A", event_bus := some { publishes := some ["e"] } }]).event_publishers e)) ∧
     (∀ e, (lookupD (collectAll [{ name := "A", event_bus := some { publishes := some ["e"] } },
              { name := "B", event_bus := some { subscribes := some ["e"] } }]).event_subscribers e).Perm
            (lookupD (collectAll [{ name := "B", event_bus := some { subscribes := some ["e"] } },
              { name := "A", event_bus := some { publishes := some ["e"] } }]).event_subscribers e)) ∧
     (∀ k, (lookupD (collectAll [{ name := "A", event_bus := some { publishes := some ["e"] } },
              { name := "B", event_bus := some { subscribes := some ["e"] } }]).state_publishers k).Perm
            (lookupD (collectAll [{ name := "B", event_bus := some { subscribes := some ["e"] } },
              { name := "A", event_bus := some { publishes := some ["e"] } }]).state_publishers k)) ∧
     (∀ k, (lookupD (collectAll [{ name := "A", event_bus := some { publishes := some ["e"] } },
              { name := "B", event_bus := some { subscribes := some ["e"] } }]).state_subscribers k).Perm
            (lookupD (collectAll [{ name := "B", event_bus := some { subscribes := some ["e"] } },
              { name := "A", event_bus := some { publishes := some ["e"] } }]).state_subscribers k)) ∧
     (∀ meth, ((allApiWrites [{ name := "A", event_bus := some { publishes := some ["e"] } },
           { name := "B", event_bus := some { subscribes := some ["e"] } }]).filter
             (fun kv => kv.1 == meth)).length ≤ 1 →
        List.lookup meth (collectAll [{ name := "A", event_bus := some { publishes := some ["e"] } },
            { name := "B", event_bus := some { subscribes := some ["e"] } }]).api_providers =
          List.lookup meth (collectAll [{ name := "B", event_bus := some { subscribes := some ["e"] } },
            { name := "A", event_bus := some { publishes := some ["e"] } }]).api_providers)) :=
  ⟨List.Perm.swap _ _ _,
   c8_tables_order_independent_up_to_perm _ _ (List.Perm.swap _ _ _)⟩

/-! ### Claim C2, amended part -/

theorem allStatesStep_id (acc : List (String × PyObj)) (m : ModuleInfo) :
    allStatesStep acc m = acc := rfl

theorem collectAllStates_nil (modules : List ModuleInfo) : collectAllStates modules = [] := by
  rw [collectAllStates]
  have h : ∀ acc : List (String × PyObj), List.foldl allStatesStep acc modules = acc := by
    induction modules with
    | nil => intro acc; rfl
    | cons m rest ih =>
      intro acc
      rw [List.foldl_cons, allStatesStep_id]
      exact ih acc
  exact h []

theorem stateConstLines_nil (modules : List ModuleInfo) : stateConstLines modules = [] := by
  rw [stateConstLines, collectAllStates_nil]
  rfl

theorem sortStrings_perm (l1 l2 : List String) (h : l1.Perm l2) :
    sortStrings l1 = sortStrings l2 :=
  List.eq_of_perm_of_sorted
    ((List.perm_insertionSort _ l1).trans (h.trans (List.perm_insertionSort _ l2).symm))
    (List.sorted_insertionSort _ l1) (List.sorted_insertionSort _ l2)

/-- Claim C2 as amended: every generated artifact embeds the run's
wall-clock timestamp in its provenance header (see `c2_counterexample`), so
byte-identical output is only guaranteed between runs observing the same
formatted timestamp; for a fixed timestamp the event-registry artifact is a
function of the event-key multiset alone — any enumeration order of the
same keys, and any module list, yields identical bytes. -/
theorem c2_fixed_timestamp_deterministic (now : String) (st1 st2 : ProcState)
    (hp : (st1.all_events.map (fun kv => kv.1)).Perm
          (st2.all_events.map (fun kv => kv.1))) :
    generateEventRegistryContent now st1 = generateEventRegistryContent now st2 := by
  rw [generateEventRegistryContent, generateEventRegistryContent,
    generateEventRegistryLines, generateEventRegistryLines,
    stateConstLines_nil, stateConstLines_nil, eventConstLines, eventConstLines,
    sortStrings_perm _ _ hp]

set_option maxRecDepth 40000 in
/-- Witness for the amended C2: two enumeration orders of the same two
events, with different publisher values and module lists, emit identical
bytes for a fixed timestamp. -/
theorem c2_fixed_timestamp_deterministic_witness :
    ((([("b.x", ["A"]), ("a.y", ["B"])] : List (String × List String)).map (fun kv => kv.1)).Perm
      (([("a.y", ["Z"]), ("b.x", ["Q"])] : List (String × List String)).map (fun kv => kv.1))) ∧
    generateEventRegistryContent "2025-01-01 10:00:00"
        { all_events := [("b.x", ["A"]), ("a.y", ["B"])] } =
      generateEventRegistryContent "2025-01-01 10:00:00"
        { all_events := [("a.y", ["Z"]), ("b.x", ["Q"])] } :=
  ⟨by decide,
   c2_fixed_timestamp_deterministic "2025-01-01 10:00:00"
     { all_events := [("b.x", ["A"]), ("a.y", ["B"])] }
     { all_events := [("a.y", ["Z"]), ("b.x", ["Q"])] } (by decide)⟩

/-! ### Claim C4: exactness of the orphan/missing event issues -/

theorem keys_dictAppendList (d : List (String × List String)) (k v : String) :
    (dictAppendList d k v).map Prod.fst =
      if k ∈ d.map Prod.fst then d.map Prod.fst else d.map Prod.fst ++ [k] := by
  induction d with
  | nil => simp [dictAppendList]
  | cons hd tl ih =>
    obtain ⟨k1, l⟩ := hd
    by_cases hk : k1 = k
    · subst hk
      simp [dictAppendList]
    · by_cases hm : k ∈ tl.map Prod.fst <;>
        simp [dictAppendList, hk, ih, Ne.symm hk, hm]

theorem nodupKeys_dictAppendList (d : List (String × List String)) (k v : String)
    (h : (d.map Prod.fst).Nodup) : ((dictAppendList d k v).map Prod.fst).Nodup := by
  rw [keys_dictAppendList]
  by_cases hm : k ∈ d.map Prod.fst
  · simp [hm, h]
  · simp [hm, List.nodup_append, h]

theorem nodupKeys_appendAll (ks : List String) (d : List (String × List String))
    (name : String) (h : (d.map Prod.fst).Nodup) :
    ((appendAll d ks name).map Prod.fst).Nodup := by
  induction ks generalizing d with
  | nil => exact h
  | cons k ks ih => exact ih _ (nodupKeys_dictAppendList _ _ _ h)

theorem nodupKeys_foldAppend (ms : List VManifest) (keysOf : VManifest → List String)
    (d : List (String × List String)) (h : (d.map Prod.fst).Nodup) :
    (((ms.foldl (fun d m => appendAll d (keysOf m) m.name) d)).map Prod.fst).Nodup := by
  induction ms generalizing d with
  | nil => exact h
  | cons m rest ih => exact ih _ (nodupKeys_appendAll _ _ _ h)

theorem nodupKeys_event_publishers (ms : List VManifest) :
    (((collectAll ms).event_publishers).map Prod.fst).Nodup := by
  rw [collectAll, foldCollect_event_publishers]
  exact nodupKeys_foldAppend _ _ _ (by simp)

theorem nodupKeys_event_subscribers (ms : List VManifest) :
    (((collectAll ms).event_subscribers).map Prod.fst).Nodup := by
  rw [collectAll, foldCollect_event_subscribers]
  exact nodupKeys_foldAppend _ _ _ (by simp)

theorem filter_key_of_not_mem (tab : List (String × List String)) (e : String)
    (h : e ∉ tab.map Prod.fst) :
    tab.filter (fun kv => kv.1 == e) = [] := by
  induction tab with
  | nil => rfl
  | cons hd tl ih =>
    obtain ⟨k1, l⟩ := hd
    rw [List.map_cons, List.mem_cons] at h
    push_neg at h
    simp [List.filter_cons, beq_false_of_ne (Ne.symm h.1), ih h.2]

theorem filter_key_eq_of_nodup (tab : List (String × List String)) (e : String)
    (h : (tab.map Prod.fst).Nodup) :
    tab.filter (fun kv => kv.1 == e) =
      (List.lookup e tab).elim [] (fun l => [(e, l)]) := by
  induction tab with
  | nil => rfl
  | cons hd tl ih =>
    obtain ⟨k1, l⟩ := hd
    rw [List.map_cons, List.nodup_cons] at h
    by_cases hk : k1 = e
    · subst hk
      have hrest : tl.filter (fun kv => kv.1 == k1) = [] :=
        filter_key_of_not_mem tl k1 h.1
      simp [List.filter_cons, List.lookup, hrest]
    · simp [List.filter_cons, List.lookup, beq_false_of_ne hk,
        beq_false_of_ne (fun hh => hk hh.symm), ih h.2]

theorem flatMap_guard {α β : Type} (l : List α) (p : α → Bool) (g : α → List β) :
    (l.flatMap fun x => if p x then g x else []) = (l.filter p).flatMap g := by
  induction l with
  | nil => rfl
  | cons a t ih =>
    by_cases hp : p a <;> simp [List.flatMap_cons, List.filter_cons, hp, ih]

/-- A severity filter wipes out every issue block of a different severity. -/
theorem filter_sev_flatMap_nil (tab : List (String × List String))
    (cond : String × List String → Prop) [DecidablePred cond]
    (mk : String × List String → ValidationIssue)
    (sev e : String) (hmk : ∀ kv, (mk kv).severity ≠ sev) :
    ((tab.flatMap fun kv => if cond kv then [mk kv] else []).filter
      (fun i => i.severity == sev && i.target == e)) = [] := by
  rw [List.filter_eq_nil_iff]
  intro a ha
  rw [List.mem_flatMap] at ha
  obtain ⟨kv, _, hmem⟩ := ha
  by_cases hc : cond kv
  · rw [if_pos hc, List.mem_singleton] at hmem
    subst hmem
    simp [beq_false_of_ne (hmk kv)]
  · rw [if_neg hc] at hmem
    simp at hmem

/-- The severity-and-target filter over one issue block of matching
severity keeps exactly the issue of the (unique) table entry for `e`. -/
theorem filter_target_flatMap_issue (tab other : List (String × List String))
    (e sev : String) (mk : String × List String → ValidationIssue) (l : List String)
    (hsev : ∀ kv, (mk kv).severity = sev) (htar : ∀ kv, (mk kv).target = kv.1)
    (hnodup : (tab.map Prod.fst).Nodup)
    (hlook : List.lookup e tab = some l)
    (hcond : noEntries other e = true) :
    ((tab.flatMap fun kv => if noEntries other kv.1 then [mk kv] else []).filter
      (fun i => i.severity == sev && i.target == e)) = [mk (e, l)] := by
  rw [List.filter_flatMap]
  have hshape : ∀ kv : String × List String,
      ((if noEntries other kv.1 then [mk kv] else []).filter
        (fun i => i.severity == sev && i.target == e)) =
      if kv.1 == e then (if noEntries other kv.1 then [mk kv] else []) else [] := by
    intro kv
    by_cases hc : noEntries other kv.1
    · by_cases hk : kv.1 = e
      · simp [hc, hk, List.filter_cons, hsev kv, htar kv]
      · simp [hc, List.filter_cons, hsev kv, htar kv, beq_false_of_ne hk]
    · simp [hc]
  simp only [hshape]
  rw [flatMap_guard, filter_key_eq_of_nodup _ _ hnodup, hlook]
  simp only [Option.elim]
  have hce : noEntries other (e, l).1 = true := hcond
  simp [hce]

theorem lookup_some_of_ne_nil (l : List String) (h : l ≠ []) :
    combineOpt none l = some l := by
  rw [combineOpt]
  simp [h]

/-- Claim C4: for every event in the validator's input, a published event
with no subscriber yields exactly one WARNING issue targeting it, with the
publishing modules joined in its source; a subscribed event with no
publisher yields exactly one ERROR issue targeting it. -/
theorem c4_orphan_and_missing_events (ms : List VManifest) (e : String) :
    (publishersOf ms e ≠ [] → subscribersOf ms e = [] →
      (validateEvents (collectAll ms)).filter
          (fun i => i.severity == "WARNING" && i.target == e) =
        [{ severity := "WARNING", category := "EVENT",
           message := "Event " ++ sq ++ e ++ sq ++ " is published but has no subscribers",
           source_module := pyJoin ", " (publishersOf ms e), target := e }]) ∧
    (subscribersOf ms e ≠ [] → publishersOf ms e = [] →
      (validateEvents (collectAll ms)).filter
          (fun i => i.severity == "ERROR" && i.target == e) =
        [{ severity := "ERROR", category := "EVENT",
           message := "Event " ++ sq ++ e ++ sq ++ " has subscribers but no publisher",
           source_module := pyJoin ", " (subscribersOf ms e), target := e }]) := by
  constructor
  · intro hpub hsub
    have hlookP : List.lookup e (collectAll ms).event_publishers =
        some (publishersOf ms e) := by
      rw [lookup_event_publishers]
      exact lookup_some_of_ne_nil _ hpub
    have hnoSub : noEntries (collectAll ms).event_subscribers e = true := by
      rw [noEntries, lookup_event_subscribers, hsub, combineOpt_nil]
    have hA : (((collectAll ms).event_publishers.flatMap fun ep =>
        if noEntries (collectAll ms).event_subscribers ep.1 then
          ([{ severity := "WARNING", category := "EVENT",
              message := "Event " ++ sq ++ ep.1 ++ sq ++ " is published but has no subscribers",
              source_module := pyJoin ", " ep.2, target := ep.1 }] : List ValidationIssue)
        else []).filter (fun i => i.severity == "WARNING" && i.target == e)) =
        [{ severity := "WARNING", category := "EVENT",
           message := "Event " ++ sq ++ e ++ sq ++ " is published but has no subscribers",
           source_module := pyJoin ", " (publishersOf ms e), target := e }] :=
      filter_target_flatMap_issue _ _ _ _ _ (publishersOf ms e)
        (fun kv => rfl) (fun kv => rfl) (nodupKeys_event_publishers ms) hlookP hnoSub
    have hB : (((collectAll ms).event_subscribers.flatMap fun es =>
        if noEntries (collectAll ms).event_publishers es.1 then
          ([{ severity := "ERROR", category := "EVENT",
              message := "Event " ++ sq ++ es.1 ++ sq ++ " has subscribers but no publisher",
              source_module := pyJoin ", " es.2, target := es.1 }] : List ValidationIssue)
        else []).filter (fun i => i.severity == "WARNING" && i.target == e)) = [] :=
      filter_sev_flatMap_nil _ _ _ _ _
        (fun kv => (by decide : ("ERROR" : String) ≠ "WARNING"))
    have hC : (((collectAll ms).event_publishers.flatMap fun ep =>
        if 1 < ep.2.length then
          ([{ severity := "INFO", category := "EVENT",
              message := "Event " ++ sq ++ ep.1 ++ sq ++ " is published by multiple modules",
              source_module := pyJoin ", " ep.2, target := ep.1 }] : List ValidationIssue)
        else []).filter (fun i => i.severity == "WARNING" && i.target == e)) = [] :=
      filter_sev_flatMap_nil _ _ _ _ _
        (fun kv => (by decide : ("INFO" : String) ≠ "WARNING"))
    rw [validateEvents, List.filter_append, List.filter_append, hA, hB, hC]
    simp
  · intro hsub hpub
    have hlookS : List.lookup e (collectAll ms).event_subscribers =
        some (subscribersOf ms e) := by
      rw [lookup_event_subscribers]
      exact lookup_some_of_ne_nil _ hsub
    have hnoPub : noEntries (collectAll ms).event_publishers e = true := by
      rw [noEntries, lookup_event_publishers, hpub, combineOpt_nil]
    have hA : (((collectAll ms).event_publishers.flatMap fun ep =>
        if noEntries (collectAll ms).event_subscribers ep.1 then
          ([{ severity := "WARNING", category := "EVENT",
              message := "Event " ++ sq ++ ep.1 ++ sq ++ " is published but has no subscribers",
              source_module := pyJoin ", " ep.2, target := ep.1 }] : List ValidationIssue)
        else []).filter (fun i => i.severity == "ERROR" && i.target == e)) = [] :=
      filter_sev_flatMap_nil _ _ _ _ _
        (fun kv => (by decide : ("WARNING" : String) ≠ "ERROR"))
    have hB : (((collectAll ms).event_subscribers.flatMap fun es =>
        if noEntries (collectAll ms).event_publishers es.1 then
          ([{ severity := "ERROR", category := "EVENT",
              message := "Event " ++ sq ++ es.1 ++ sq ++ " has subscribers but no publisher",
              source_module := pyJoin ", " es.2, target := es.1 }] : List ValidationIssue)
        else []).filter (fun i => i.severity == "ERROR" && i.target == e)) =
        [{ severity := "ERROR", category := "EVENT",
           message := "Event " ++ sq ++ e ++ sq ++ " has subscribers but no publisher",
           source_module := pyJoin ", " (subscribersOf ms e), target := e }] :=
      filter_target_flatMap_issue _ _ _ _ _ (subscribersOf ms e)
        (fun kv => rfl) (fun kv => rfl) (nodupKeys_event_subscribers ms) hlookS hnoPub
    have hC : (((collectAll ms).event_publishers.flatMap fun ep =>
        if 1 < ep.2.length then
          ([{ severity := "INFO", category := "EVENT",
              message := "Event " ++ sq ++ ep.1 ++ sq ++ " is published by multiple modules",
              source_module := pyJoin ", " ep.2, target := ep.1 }] : List ValidationIssue)
        else []).filter (fun i => i.severity == "ERROR" && i.target == e)) = [] :=
      filter_sev_flatMap_nil _ _ _ _ _
        (fun kv => (by decide : ("INFO" : String) ≠ "ERROR"))
    rw [validateEvents, List.filter_append, List.filter_append, hA, hB, hC]
    simp

/-- Witness for C4: `Sensors` publishes `x.y` with nobody subscribed
(one WARNING), and `Display` subscribes `z.w` with nobody publishing
(one ERROR). -/
theorem c4_orphan_and_missing_events_witness :
    (publishersOf [{ name := "Sensors", event_bus := some { publishes := some ["x.y"] } }] "x.y" ≠ [] ∧
     subscribersOf [{ name := "Sensors", event_bus := some { publishes := some ["x.y"] } }] "x.y" = [] ∧
     (validateEvents (collectAll
          [{ name := "Sensors", event_bus := some { publishes := some ["x.y"] } }])).filter
         (fun i => i.severity == "WARNING" && i.target == "x.y") =
       [{ severity := "WARNING", category := "EVENT",
          message := "Event \x27x.y\x27 is published but has no subscribers",
          source_module := "Sensors", target := "x.y" }]) ∧
    (subscribersOf [{ name := "Display", event_bus := some { subscribes := some ["z.w"] } }] "z.w" ≠ [] ∧
     publishersOf [{ name := "Display", event_bus := some { subscribes := some ["z.w"] } }] "z.w" = [] ∧
     (validateEvents (collectAll
          [{ name := "Display", event_bus := some { subscribes := some ["z.w"] } }])).filter
         (fun i => i.severity == "ERROR" && i.target == "z.w") =
       [{ severity := "ERROR", category := "EVENT",
          message := "Event \x27z.w\x27 has subscribers but no publisher",
          source_module := "Display", target := "z.w" }]) := by
  refine ⟨⟨by decide, by decide, ?_⟩, ⟨by decide, by decide, ?_⟩⟩
  · exact (c4_orphan_and_missing_events
      [{ name := "Sensors", event_bus := some { publishes := some ["x.y"] } }] "x.y").1
      (by decide) (by decide)
  · exact (c4_orphan_and_missing_events
      [{ name := "Display", event_bus := some { subscribes := some ["z.w"] } }] "z.w").2
      (by decide) (by decide)

end ModESPProof
